import Mathlib

/-!
# Verification of the weavehack task-orchestration client and core

Part 1 embeds the browser client `GeneratorCard.onSubmit` (file
`src/unnamed/part_000`, a React component): the A2A request it builds, the
URL constants it posts to and polls, the polling loop over task snapshots,
the artifact extraction, the error display path, and the form-validation
rules attached to the `apiUrl` field.

Part 2 models the orchestration core (Task Store, Root Orchestrator,
retry policy) which the repository only documents; those definitions are
marked `Modelled from the spec:`.

JavaScript optional chaining (`a?.b`) is embedded as `Option.bind`; a JS
string compared with `!==`/`===` against a possibly-undefined field is an
`Option String`.  Log lines (`addLog`) carry wall-clock timestamps and are
presentation only, so the UI model keeps `isGenerating`, `error`, `result`
and omits `logs`.
-/

namespace Weavehack

/-! ## Wire shapes seen by the client (`response.data` of the A2A server) -/

/-- `status.message.content` object: `{ text?: string }`. -/
structure MsgContent where
  text : Option String
deriving DecidableEq

/-- `status.message` object: `{ content?: { text? } }`. -/
structure StatusMessage where
  content : Option MsgContent
deriving DecidableEq

/-- `status` object of a task snapshot: `{ state: string, message?: ... }`. -/
structure TaskStatus where
  state : String
  message : Option StatusMessage
deriving DecidableEq

/-- One element of an artifact's `parts` array: `{ text?: string }`. -/
structure ArtifactPart where
  text : Option String
deriving DecidableEq

/-- One element of the snapshot's `artifacts` array.  The client code only
reads `parts[0].text`; the `type` field is carried on the wire (spec section 6
gives artifacts a `type`) but is never read by `onSubmit`. -/
structure ClientArtifact where
  type : Option String
  parts : Option (List ArtifactPart)
deriving DecidableEq

/-- A task snapshot as the client receives it from `POST /tasks/send` or
`GET /root-agent/tasks/{id}`: `{ id, status?, artifacts?, error? }`.  The
`error` field is part of the snapshot shape (spec section 6) and is never
read by the client code. -/
structure TaskSnapshot where
  id : String
  status : Option TaskStatus
  artifacts : Option (List ClientArtifact)
  error : Option String
deriving DecidableEq

/-- `taskResult.status?.state` (an absent `status` yields `undefined`). -/
def TaskSnapshot.statusState (t : TaskSnapshot) : Option String :=
  t.status.map TaskStatus.state

/-- `taskResult.status?.message?.content?.text`. -/
def TaskSnapshot.statusMessageText (t : TaskSnapshot) : Option String :=
  ((t.status.bind TaskStatus.message).bind StatusMessage.content).bind MsgContent.text

/-! ## Request construction (lines 49-74 of the component) -/

/-- Which input tab is active: `useState<'url' | 'spec'>('url')`. -/
inductive Tab
  | url
  | spec
deriving DecidableEq

/-- The form data `{ apiUrl?: string; openApiSpec?: string }`. -/
structure FormData where
  apiUrl : Option String
  openApiSpec : Option String
deriving DecidableEq

/-- A JS template literal renders `undefined` as the string "undefined". -/
def renderOpt (s : Option String) : String :=
  s.getD "undefined"

/-- The instruction text built from the active tab (lines 49-51). -/
def requestMessage (activeTab : Tab) (data : FormData) : String :=
  match activeTab with
  | Tab.url => "Generate an MCP server for the API at " ++ renderOpt data.apiUrl
  | Tab.spec =>
      "Generate an MCP server from this OpenAPI specification:\n\n" ++
        renderOpt data.openApiSpec

/-- `{ role, content }` of the A2A message. -/
structure A2AMessage where
  role : String
  content : String
deriving DecidableEq

/-- The request body `{ message: { role: "user", content: requestMessage } }`
(lines 56-61). -/
structure A2ARequest where
  message : A2AMessage
deriving DecidableEq

/-- Body of the creation POST. -/
def a2aRequest (m : String) : A2ARequest :=
  { message := { role := "user", content := m } }

/-- The URL of the creation POST (line 66). -/
def postUrl : String :=
  "http://127.0.0.1:10000/tasks/send"

/-- `taskId = response.data.id` (line 74). -/
def taskIdUsed (resp : TaskSnapshot) : String :=
  resp.id

/-- The URL polled for a task id (line 81). -/
def pollUrl (taskId : String) : String :=
  "/root-agent/tasks/" ++ taskId

/-! ## The polling loop (lines 77-88) -/

/-- Loop guard of line 77:
`taskResult.status?.state !== 'completed' && taskResult.status?.state !== 'failed'`. -/
def pollContinue (t : TaskSnapshot) : Bool :=
  t.statusState != some "completed" && t.statusState != some "failed"

/-- The polling loop, driven by the list of successive `GET` outcomes
(`Except.error` is an axios rejection, which the surrounding `try` catches).
`none` means the supplied poll outcomes were exhausted while the guard still
held: within the observed window the loop has not returned. -/
def pollLoopRun (t : TaskSnapshot) :
    List (Except String TaskSnapshot) → Option (Except String TaskSnapshot)
  | [] => if pollContinue t then none else some (Except.ok t)
  | e :: rest =>
      if pollContinue t then
        match e with
        | Except.error m => some (Except.error m)
        | Except.ok t2 => pollLoopRun t2 rest
      else some (Except.ok t)

/-! ## Artifact extraction (line 97) and the spec's notion of final result -/

/-- `taskResult.artifacts?.[0]?.parts?.[0]?.text || ''` (line 97). -/
def extractArtifactText (t : TaskSnapshot) : String :=
  ((((t.artifacts.bind List.head?).bind ClientArtifact.parts).bind
      List.head?).bind ArtifactPart.text).getD ""

/-- The caller-visible result as the SPEC words it (data-model section 3):
"the last artifact with type \"final-code\" or \"final-manifest\" is the
caller-visible result".  Stated for comparison against the client's actual
extraction; not part of the code embedding. -/
def specCallerVisibleResult (arts : List ClientArtifact) : Option ClientArtifact :=
  (arts.filter fun a =>
    a.type == some "final-code" || a.type == some "final-manifest").getLast?

/-! ## The handler body: try / catch / finally (lines 39-123) -/

/-- `{ manifestUrl, downloadUrl }` shown on success. -/
structure GenerationResult where
  manifestUrl : String
  downloadUrl : String
deriving DecidableEq

/-- The component state `onSubmit` writes (logs omitted, see module header). -/
structure UiState where
  isGenerating : Bool
  error : Option String
  result : Option GenerationResult
deriving DecidableEq

/-- The fixed result set on success (lines 102-105). -/
def placeholderResult : GenerationResult :=
  { manifestUrl := "/root-agent/generated/manifest.json"
    downloadUrl := "/root-agent/generated/download" }

/-- JS `string || default` on a possibly-undefined string: both `undefined`
and the empty string are falsy and select the default. -/
def jsOrDefault (s : Option String) (d : String) : String :=
  match s with
  | none => d
  | some t => if t = "" then d else t

/-- Line 116: `err.response?.data?.message || err.message || 'Generation
failed'` — the carried message, with the empty string falling back to
`'Generation failed'`. -/
def catchMessage (m : String) : String :=
  if m = "" then "Generation failed" else m

/-- The `try` block: create the task (`create` is the POST outcome), run the
polling loop, throw on a failed snapshot with
`taskResult.status?.message?.content?.text || 'Task failed'` (lines 90-92;
JS `||` defaults on an absent AND on an empty text), otherwise succeed with
the placeholder result.  `none` means the handler has not returned within
the observed poll window. -/
def tryBlock (create : Except String TaskSnapshot)
    (polls : List (Except String TaskSnapshot)) :
    Option (Except String GenerationResult) :=
  match create with
  | Except.error m => some (Except.error m)
  | Except.ok t0 =>
      match pollLoopRun t0 polls with
      | none => none
      | some (Except.error m) => some (Except.error m)
      | some (Except.ok tFinal) =>
          if tFinal.statusState == some "failed" then
            some (Except.error (jsOrDefault tFinal.statusMessageText "Task failed"))
          else
            some (Except.ok placeholderResult)

/-- The whole handler: `try` body, `catch` writing `error`, `finally`
clearing `isGenerating` on every path that returns. -/
def onSubmitRun (create : Except String TaskSnapshot)
    (polls : List (Except String TaskSnapshot)) : Option UiState :=
  match tryBlock create polls with
  | none => none
  | some (Except.ok r) =>
      some { isGenerating := false, error := none, result := some r }
  | some (Except.error m) =>
      some { isGenerating := false, error := some (catchMessage m), result := none }

/-! ## Form validation of the URL tab (lines 230-245) -/

/-- Characters the JS regex `.` does not match. -/
def isJsLineTerminator (c : Char) : Bool :=
  c = '\n' || c = '\r' || c.toNat = 0x2028 || c.toNat = 0x2029

/-- `.+` at a position: at least one character, not a line terminator. -/
def dotPlusAt : List Char → Bool
  | [] => false
  | c :: _ => !(isJsLineTerminator c)

/-- The source pattern `/^https?:\/\/.+/` applied by `test` semantics. -/
def matchesApiUrlPattern (s : String) : Bool :=
  (s.toList.take 7 == "http://".toList && dotPlusAt (s.toList.drop 7)) ||
    (s.toList.take 8 == "https://".toList && dotPlusAt (s.toList.drop 8))

/-- The `register('apiUrl', ...)` rules: `required` with message "API URL is
required", then `pattern` with message "Please enter a valid URL".  Returns
the displayed validation error, `none` when the field is valid. -/
def validateApiUrl (s : String) : Option String :=
  if s = "" then some "API URL is required"
  else if matchesApiUrlPattern s then none
  else some "Please enter a valid URL"

/-- `handleSubmit(onSubmit)` invokes the handler — and hence dispatches the
network request — exactly when validation passes. -/
def urlSubmitDispatches (s : String) : Bool :=
  (validateApiUrl s).isNone

/-! ## Part 2 — the orchestration core, modelled from the spec

The Task Store, Root Orchestrator and retry policy are documented by the
repository (spec sections 3-4, the integration README) but their source is
not under `src/`; the definitions below are modelled from the spec's words. -/

/-- Modelled from the spec: the task `state` field, one of
`pending, running, input_required, completed, failed` (spec section 3). -/
inductive TState
  | pending
  | running
  | input_required
  | completed
  | failed
deriving DecidableEq

/-- `completed` and `failed` are the terminal states (spec section 4.4). -/
def TState.isTerminal : TState → Bool
  | TState.completed => true
  | TState.failed => true
  | _ => false

/-- Modelled from the spec: the legal state-machine edges of section 4.4 —
`pending → running → \x7binput_required ⇄ running\x7d → \x7bcompleted | failed\x7d`,
plus failure/cancellation edges from every non-terminal state;
`completed`/`failed` are absorbing. -/
def legalEdge : TState → TState → Bool
  | TState.pending, TState.running => true
  | TState.running, TState.input_required => true
  | TState.input_required, TState.running => true
  | TState.running, TState.completed => true
  | TState.running, TState.failed => true
  | TState.pending, TState.failed => true
  | TState.input_required, TState.failed => true
  | _, _ => false

/-- Modelled from the spec: a history `Message` record — one per stage
transition or intermediate note (spec section 3); kept structural so the
per-stage entries of section 4.4 ("stage:extract started" / "... done")
are distinguishable. -/
inductive HMessage
  | stageStarted (name : String)
  | stageDone (name : String)
  | note (text : String)
deriving DecidableEq

/-- Modelled from the spec: an `Artifact` record, a typed payload
(spec section 3). -/
structure Artifact where
  type : String
  text : String
deriving DecidableEq

/-- Modelled from the spec: the `Task` record of section 3 (timestamps,
which only feed the staleness policy, are omitted). -/
structure Task where
  id : Nat
  state : TState
  input : String
  history : List HMessage
  artifacts : List Artifact
  error : Option String
deriving DecidableEq

/-- Modelled from the spec: Task Store `appendMessage` (section 4.1); a task
in a terminal state never mutates further (section 3 invariants). -/
def appendMessage (t : Task) (m : HMessage) : Task :=
  if t.state.isTerminal then t else { t with history := t.history ++ [m] }

/-- Modelled from the spec: Task Store `appendArtifact` (section 4.1);
append-only, and terminal tasks never mutate. -/
def appendArtifact (t : Task) (a : Artifact) : Task :=
  if t.state.isTerminal then t else { t with artifacts := t.artifacts ++ [a] }

/-- Modelled from the spec: Task Store `transition(id, newState, error?)`
(section 4.1) — fails with `InvalidTransition` when the requested edge is
not legal per section 4.4; `error` is populated exactly on entry to
`failed` (section 3: "Exactly one `error` is set iff `state = failed`"). -/
def transition (t : Task) (s : TState) (e : Option String) : Except String Task :=
  if legalEdge t.state s then
    Except.ok { t with state := s, error := if s = TState.failed then e else t.error }
  else Except.error "InvalidTransition"

/-- One Task Store mutation, for stating store-wide invariants. -/
inductive StoreOp
  | appendMsg (m : HMessage)
  | appendArt (a : Artifact)
  | trans (s : TState) (e : Option String)
deriving DecidableEq

/-- Apply a store operation; a rejected `transition` (`InvalidTransition` is
asserted/logged, not applied) leaves the record unchanged. -/
def applyOp (t : Task) : StoreOp → Task
  | StoreOp.appendMsg m => appendMessage t m
  | StoreOp.appendArt a => appendArtifact t a
  | StoreOp.trans s e => ((transition t s e).toOption).getD t

/-- Modelled from the spec: an `AgentResult` as the orchestrator sees it
(section 3), with the `error` status split into the two classes of
section 7 — `transportErr` (retryable `TransportError`, already translated
by the Agent Client) and `rejection` (`AdapterRejection`, not retryable). -/
inductive AgentResult
  | ok (a : Artifact)
  | needsInput (msg : String)
  | transportErr (msg : String)
  | rejection (msg : String)
deriving DecidableEq

/-- Modelled from the spec: the per-stage retry policy (section 4.4): the
stage is re-dispatched only after a transport-class error and at most
`retriesLeft` more times; any other result settles at once.  `attempts` is
the oracle of successive dispatch outcomes; the result carries the number
of dispatches consumed, `none` meaning the oracle was exhausted. -/
def settleStage : Nat → List AgentResult → Option (AgentResult × Nat)
  | _, [] => none
  | retriesLeft, r :: rest =>
      match r with
      | AgentResult.transportErr m =>
          match retriesLeft with
          | 0 => some (AgentResult.transportErr m, 1)
          | n + 1 =>
              match settleStage n rest with
              | some (r2, k) => some (r2, k + 1)
              | none => none
      | r2 => some (r2, 1)

/-- Outcome of driving a pipeline: either the worker ran to a terminal state,
or it suspended in `input_required` with the suspended stage at the head of
`remaining` and the adapter's clarification message. -/
inductive RunOutcome
  | finished (t : Task)
  | suspended (t : Task) (remaining : List String) (msg : String)
deriving DecidableEq

/-- The task carried by an outcome. -/
def RunOutcome.task : RunOutcome → Task
  | RunOutcome.finished t => t
  | RunOutcome.suspended t _ _ => t

/-- Modelled from the spec: the orchestrator's per-task algorithm
(section 4.4, steps 2-5) from a given stage list, the task already
`running`.  Per stage: append the "started" history entry, settle the stage
under the retry policy, then — `ok`: append artifact and "done" entry and
proceed; `needs-input`: transition to `input_required` and suspend at this
stage; `error` (either class, retries exhausted for transport): transition
to `failed` with the message.  After the last stage, `running → completed`.
`oracles` lists, per stage, the successive dispatch outcomes; `none` means
an oracle ran dry. -/
def runStages (retryBound : Nat) :
    List String → List (List AgentResult) → Task → Option RunOutcome
  | [], _, t =>
      some (RunOutcome.finished (((transition t TState.completed none).toOption).getD t))
  | name :: rest, oracles, t =>
      let t1 := appendMessage t (HMessage.stageStarted name)
      match settleStage retryBound (oracles.headD []) with
      | none => none
      | some (AgentResult.ok a, _) =>
          let t2 := appendMessage (appendArtifact t1 a) (HMessage.stageDone name)
          runStages retryBound rest (oracles.tailD []) t2
      | some (AgentResult.needsInput m, _) =>
          some (RunOutcome.suspended
            (((transition t1 TState.input_required none).toOption).getD t1)
            (name :: rest) m)
      | some (AgentResult.transportErr m, _) =>
          some (RunOutcome.finished
            (((transition t1 TState.failed (some m)).toOption).getD t1))
      | some (AgentResult.rejection m, _) =>
          some (RunOutcome.finished
            (((transition t1 TState.failed (some m)).toOption).getD t1))

/-- Modelled from the spec: the fixed three-stage pipeline
extract → synthesize → generate (section 4.4). -/
def stageNames : List String :=
  ["extract", "synthesize", "generate"]

/-- Modelled from the spec: dispatch of a whole pending task — transition
`pending → running` then run the pipeline (section 4.4, step 1). -/
def runTask (retryBound : Nat) (oracles : List (List AgentResult)) (t0 : Task) :
    Option RunOutcome :=
  match transition t0 TState.running none with
  | Except.error _ => none
  | Except.ok t1 => runStages retryBound stageNames oracles t1

/-- Modelled from the spec: a caller-supplied clarification answer amends
the task's `input` — "the Task's `input` is amended, not replaced"
(section 4.4, step 2). -/
def amendInput (t : Task) (answer : String) : Task :=
  { t with input := t.input ++ "\n" ++ answer }

/-- Modelled from the spec: `POST /tasks/\x7bid\x7d/input` — valid only while
`state = input_required` (section 6); the answer amends the input and the
pipeline re-enters at the suspended stage, not from the start
(section 4.4, step 2). -/
def resumeRun (retryBound : Nat) (t : Task) (remaining : List String)
    (answer : String) (oracles : List (List AgentResult)) : Option RunOutcome :=
  if t.state = TState.input_required then
    match transition (amendInput t answer) TState.running none with
    | Except.ok t2 => runStages retryBound remaining oracles t2
    | Except.error _ => none
  else none

/-- Occurrences of a stage's "started" history entry. -/
def stageStartedCount (name : String) (h : List HMessage) : Nat :=
  (h.filter fun m => m = HMessage.stageStarted name).length

/-- Modelled from the spec: Task Store `create(input) -> Task\x7bid, state=pending\x7d`
(section 4.1). -/
def createTask (id0 : Nat) (input0 : String) : Task :=
  { id := id0, state := TState.pending, input := input0
    history := [], artifacts := [], error := none }

/-! ## Concrete data for counterexamples and witnesses -/

/-- A snapshot suspended in `input_required`, as `GET` would return it. -/
def inputRequiredSnap : TaskSnapshot :=
  { id := "task-1"
    status := some
      { state := "input_required"
        message := some
          { content := some { text := some "Which auth scheme should the server use?" } } }
    artifacts := none
    error := none }

/-- A completed snapshot with one artifact. -/
def completedSnap : TaskSnapshot :=
  { id := "task-1"
    status := some { state := "completed", message := none }
    artifacts := some
      [{ type := some "final-code", parts := some [{ text := some "print(42)" }] }]
    error := none }

/-- A failed snapshot that carries both a status message and an `error` field. -/
def failedSnap : TaskSnapshot :=
  { id := "task-3"
    status := some
      { state := "failed"
        message := some
          { content := some { text := some "Extractor could not reach the API" } } }
    artifacts := none
    error := some "E-INTERNAL-c0ffee" }

/-- A completed snapshot whose LAST artifact is the "final-code" one while
the FIRST is an intermediate note. -/
def twoArtifactSnap : TaskSnapshot :=
  { id := "task-2"
    status := some { state := "completed", message := none }
    artifacts := some
      [ { type := some "progress-note", parts := some [{ text := some "hello" }] },
        { type := some "final-code", parts := some [{ text := some "CODE" }] } ]
    error := none }

/-- A freshly created task. -/
def pendingTask0 : Task :=
  createTask 1 "make a weather MCP server"

/-- The same task once dispatched (`pending → running`). -/
def runningTask0 : Task :=
  { pendingTask0 with state := TState.running }

/-- A task already in a terminal state. -/
def doneTask0 : Task :=
  { id := 9, state := TState.completed, input := "x"
    history := [], artifacts := [], error := none }

/-- A task suspended at the Synthesizer stage: the Extractor already ran. -/
def suspendedTask0 : Task :=
  { id := 7, state := TState.input_required
    input := "make tools for the GitHub API"
    history := [HMessage.stageStarted "extract", HMessage.stageDone "extract",
                HMessage.stageStarted "synthesize"]
    artifacts := [{ type := "api-description", text := "operation list" }]
    error := none }

/-- An artifact a successful adapter call returns. -/
def defaultArtifact : Artifact :=
  { type := "final-code", text := "generated server" }

/-- Oracles under which every remaining stage succeeds on its first attempt. -/
def oracles0 : List (List AgentResult) :=
  [[AgentResult.ok defaultArtifact], [AgentResult.ok defaultArtifact]]

/-- The outcome of resuming `suspendedTask0` with an answer under `oracles0`. -/
def resumedOut0 : RunOutcome :=
  (resumeRun 2 suspendedTask0 ["synthesize", "generate"] "use token auth"
    oracles0).getD (RunOutcome.finished suspendedTask0)

/-! ## Helper lemmas -/

instance {α β : Type} [DecidableEq α] [DecidableEq β] : DecidableEq (Except α β) :=
  fun a b =>
    match a, b with
    | Except.ok x, Except.ok y =>
        if h : x = y then isTrue (by rw [h]) else isFalse (by simp [h])
    | Except.error x, Except.error y =>
        if h : x = y then isTrue (by rw [h]) else isFalse (by simp [h])
    | Except.ok _, Except.error _ => isFalse (by simp)
    | Except.error _, Except.ok _ => isFalse (by simp)

/-- No edge leaves a terminal state. -/
theorem legalEdge_terminal_false (s1 s2 : TState) (h : s1.isTerminal = true) :
    legalEdge s1 s2 = false := by
  cases s1 <;> simp [TState.isTerminal] at h <;> cases s2 <;> rfl

/-! ## Claims -/

/-- C1: the claim says the caller's polling loop terminates exactly on a
terminal (`completed`/`failed`) OR `input_required` state.  The loop guard of
line 77 of the component tests only `completed` and `failed`, so on an
`input_required` snapshot the client keeps polling and never returns — it
never surfaces the clarification prompt, contradicting the repository's own
integration notes ("Checks for task states: completed, failed, or
input_required", `src/unnamed/part_002`).  This theorem evaluates the code
at the failing input: the guard holds at `input_required` (the loop goes on),
while `completed` and `failed` do stop it. -/
theorem C1_poll_loops_on_input_required :
    pollContinue inputRequiredSnap = true ∧
    pollLoopRun inputRequiredSnap
      (List.replicate 5 (Except.ok inputRequiredSnap)) = none ∧
    pollContinue completedSnap = false ∧
    pollLoopRun completedSnap [] = some (Except.ok completedSnap) ∧
    pollContinue failedSnap = false := by
  decide

/-- C2 counterexample: on a completed snapshot whose first artifact is an
intermediate note and whose last artifact has type "final-code", the client's
extraction (line 97: `artifacts?.[0]?.parts?.[0]?.text || ''`) yields the
note's text, not the text of the last "final-code"/"final-manifest" artifact
the claim designates. -/
theorem C2_counterexample :
    extractArtifactText twoArtifactSnap = "hello" ∧
    ((specCallerVisibleResult (twoArtifactSnap.artifacts.getD [])).bind
      (fun a => (a.parts.bind List.head?).bind ArtifactPart.text)) = some "CODE" ∧
    ("hello" : String) ≠ "CODE" := by
  decide

/-- C2 (amended): the client extracts the text of the first part of the
FIRST artifact of the snapshot (empty string when absent); later artifacts
and every artifact's `type` field are ignored. -/
theorem C2_first_artifact_extracted (id0 : String) (st : Option TaskStatus)
    (e : Option String) (a : ClientArtifact) (rest : List ClientArtifact)
    (ty : Option String) :
    extractArtifactText
        { id := id0, status := st, artifacts := some (a :: rest), error := e } =
      extractArtifactText
        { id := id0, status := st, artifacts := some [{ a with type := ty }],
          error := e } := by
  cases a
  rfl

/-- C6 counterexample: the creation POST of line 66 does not go to the
`/tasks` endpoint of the claim. -/
theorem C6_counterexample :
    postUrl ≠ "http://127.0.0.1:10000" ++ "/tasks" := by
  decide

/-- C6 (amended): the client POSTs to `/tasks/send` (not `/tasks`) on the
agent host, with body `\x7bmessage: \x7brole: "user", content: <instruction>\x7d\x7d`;
a freshly created task starts in `pending`; and every subsequent poll URL is
built from the `id` of the creation response. -/
theorem C6_request_shape (tab : Tab) (data : FormData) (resp : TaskSnapshot)
    (n : Nat) (input0 : String) :
    postUrl = "http://127.0.0.1:10000" ++ "/tasks/send" ∧
    (a2aRequest (requestMessage tab data)).message.role = "user" ∧
    (a2aRequest (requestMessage tab data)).message.content =
      requestMessage tab data ∧
    (createTask n input0).state = TState.pending ∧
    pollUrl (taskIdUsed resp) = "/root-agent/tasks/" ++ resp.id := by
  exact ⟨by decide, rfl, rfl, rfl, rfl⟩

/-- C7 counterexample: on a failed snapshot the client surfaces the task's
`status.message.content.text`, not the string carried in the snapshot's
`error` field — the `error` field is never read by `onSubmit`. -/
theorem C7_counterexample :
    failedSnap.error = some "E-INTERNAL-c0ffee" ∧
    onSubmitRun (Except.ok failedSnap) [] =
      some { isGenerating := false
             error := some "Extractor could not reach the API"
             result := none } ∧
    (some "Extractor could not reach the API" : Option String) ≠ failedSnap.error := by
  decide

/-- C7 (amended): for every snapshot observed in state `failed`, the handler
ends with no result and with the displayed error equal to the snapshot's
`status.message.content.text` when that text is a non-empty string, and
"Task failed" otherwise (text absent or empty, both falsy under JS `||`) —
always a human-readable string from the task record, never the `error`
field and never a transport stack trace. -/
theorem C7_failed_display (t : TaskSnapshot) (h : t.statusState = some "failed") :
    onSubmitRun (Except.ok t) [] =
      some { isGenerating := false
             error := some (jsOrDefault t.statusMessageText "Task failed")
             result := none } := by
  have hpc : pollContinue t = false := by
    simp [pollContinue, h]
  have hje : catchMessage (jsOrDefault t.statusMessageText "Task failed") =
      jsOrDefault t.statusMessageText "Task failed" := by
    unfold jsOrDefault catchMessage
    cases t.statusMessageText with
    | none => rfl
    | some s => by_cases hs : s = "" <;> simp [hs]
  simp [onSubmitRun, tryBlock, pollLoopRun, hpc, h, hje]

/-- C7 witness: the amended statement at the concrete failed snapshot. -/
theorem C7_witness :
    onSubmitRun (Except.ok failedSnap) [] =
      some { isGenerating := false
             error := some (jsOrDefault failedSnap.statusMessageText "Task failed")
             result := none } :=
  C7_failed_display failedSnap (by decide)

/-- C9: on the URL tab, the network request is dispatched exactly when the
`apiUrl` value is non-empty and matches `^https?://.+`; a violating
submission yields a displayed validation error and no request. -/
theorem C9_url_validation (s : String) :
    (urlSubmitDispatches s = true ↔ s ≠ "" ∧ matchesApiUrlPattern s = true) ∧
    (urlSubmitDispatches s = false → (validateApiUrl s).isSome = true) := by
  unfold urlSubmitDispatches validateApiUrl
  by_cases h1 : s = "" <;> by_cases h2 : matchesApiUrlPattern s = true <;>
    simp [h1, h2]

/-- C9 witness: a valid URL dispatches; an invalid scheme does not. -/
theorem C9_witness :
    urlSubmitDispatches "https://api.example.com" = true ∧
    urlSubmitDispatches "ftp://example.com" = false :=
  ⟨(C9_url_validation "https://api.example.com").1.mpr (by decide), by decide⟩

/-- C10: whenever the submit handler returns — success, thrown task failure,
or a rejected network call at creation or during polling — the `finally`
block has set `isGenerating` to `false`, so the submit button is re-enabled. -/
theorem C10_finally_clears_isGenerating (create : Except String TaskSnapshot)
    (polls : List (Except String TaskSnapshot)) (st : UiState)
    (h : onSubmitRun create polls = some st) : st.isGenerating = false := by
  unfold onSubmitRun at h
  cases htb : tryBlock create polls with
  | none => rw [htb] at h; cases h
  | some r =>
      cases r with
      | error m => rw [htb] at h; cases h; rfl
      | ok v => rw [htb] at h; cases h; rfl

/-- C10 witness: a successful run returns with `isGenerating = false`. -/
theorem C10_witness :
    UiState.isGenerating
      { isGenerating := false, error := none, result := some placeholderResult } = false :=
  C10_finally_clears_isGenerating (Except.ok completedSnap) []
    { isGenerating := false, error := none, result := some placeholderResult }
    (by decide)

/-- C3: every transition the Task Store accepts follows a legal edge and
lands in the requested state; the legal edges are exactly
pending → running, running → input_required, input_required → running,
running → completed, running → failed, plus failure/cancellation edges from
non-terminal states; and no edge at all leaves `completed` or `failed`. -/
theorem C3_state_machine :
    (∀ (t : Task) (s : TState) (e : Option String) (t2 : Task),
        transition t s e = Except.ok t2 →
        legalEdge t.state s = true ∧ t2.state = s) ∧
    (∀ s1 s2, legalEdge s1 s2 = true →
        (s1 = TState.pending ∧ s2 = TState.running) ∨
        (s1 = TState.running ∧ s2 = TState.input_required) ∨
        (s1 = TState.input_required ∧ s2 = TState.running) ∨
        (s1 = TState.running ∧ s2 = TState.completed) ∨
        (s1 = TState.running ∧ s2 = TState.failed) ∨
        (s1.isTerminal = false ∧ s2 = TState.failed)) ∧
    (∀ s1 s2, s1.isTerminal = true → legalEdge s1 s2 = false) := by
  refine ⟨?_, ?_, legalEdge_terminal_false⟩
  · intro t s e t2 h
    by_cases hl : legalEdge t.state s = true
    · refine ⟨hl, ?_⟩
      unfold transition at h
      rw [if_pos hl] at h
      cases h
      rfl
    · unfold transition at h
      rw [if_neg hl] at h
      cases h
  · intro s1 s2 h
    cases s1 <;> cases s2 <;> simp_all [legalEdge, TState.isTerminal]

/-- C3 witness: the accepted dispatch edge `pending → running` at a concrete
task, and the absence of any edge out of `completed`. -/
theorem C3_witness :
    (legalEdge pendingTask0.state TState.running = true ∧
      runningTask0.state = TState.running) ∧
    legalEdge TState.completed TState.running = false :=
  ⟨C3_state_machine.1 pendingTask0 TState.running none runningTask0 (by decide),
   C3_state_machine.2.2 TState.completed TState.running rfl⟩

/-- C8: under any single Task Store mutation the `history` and `artifacts`
sequences never shrink, and a task already in `completed` or `failed` is
left completely unchanged (appends are refused and any requested transition
is an `InvalidTransition`, which is not applied). -/
theorem C8_store_monotone (t : Task) (op : StoreOp) :
    t.history.length ≤ (applyOp t op).history.length ∧
    t.artifacts.length ≤ (applyOp t op).artifacts.length ∧
    (t.state.isTerminal = true → applyOp t op = t) := by
  cases op with
  | appendMsg m =>
      by_cases ht : t.state.isTerminal = true <;>
        simp [applyOp, appendMessage, ht]
  | appendArt a =>
      by_cases ht : t.state.isTerminal = true <;>
        simp [applyOp, appendArtifact, ht]
  | trans s e =>
      by_cases hl : legalEdge t.state s = true
      · refine ⟨?_, ?_, ?_⟩
        · simp [applyOp, transition, hl, Except.toOption]
        · simp [applyOp, transition, hl, Except.toOption]
        · intro ht
          rw [legalEdge_terminal_false t.state s ht] at hl
          cases hl
      · simp [applyOp, transition, hl, Except.toOption]

/-- C8 witness: a late append to a completed task leaves it unchanged. -/
theorem C8_witness :
    applyOp doneTask0 (StoreOp.appendMsg (HMessage.note "late entry")) = doneTask0 :=
  (C8_store_monotone doneTask0 (StoreOp.appendMsg (HMessage.note "late entry"))).2.2 rfl

/-- C4: the retry policy — an `AdapterRejection` settles the stage on the
very first dispatch (zero retries, whatever the oracle would have answered
next) and fails the task immediately with the adapter's message; a
transport-class error is re-dispatched and only settles as a failure after
`retryBound + 1` attempts; and a success arriving within the bound settles
the stage as `ok`. -/
theorem C4_retry_policy :
    (∀ (rb : Nat) (m : String) (rest : List AgentResult),
        settleStage rb (AgentResult.rejection m :: rest) =
          some (AgentResult.rejection m, 1)) ∧
    (∀ (rb : Nat) (m : String),
        settleStage rb (List.replicate (rb + 1) (AgentResult.transportErr m)) =
          some (AgentResult.transportErr m, rb + 1)) ∧
    (∀ (rb k : Nat) (m : String) (a : Artifact), k ≤ rb →
        settleStage rb (List.replicate k (AgentResult.transportErr m) ++
          [AgentResult.ok a]) = some (AgentResult.ok a, k + 1)) ∧
    (∀ (rb : Nat) (name m : String) (rest : List AgentResult) (t : Task),
        t.state = TState.running →
        runStages rb [name] [AgentResult.rejection m :: rest] t =
          some (RunOutcome.finished
            { t with
                history := t.history ++ [HMessage.stageStarted name]
                state := TState.failed
                error := some m })) := by
  refine ⟨fun rb m rest => by simp [settleStage], ?_, ?_, ?_⟩
  · intro rb m
    induction rb with
    | zero => rfl
    | succ n ih =>
        rw [List.replicate_succ]
        simp [settleStage, ih]
  · intro rb k m a
    induction k generalizing rb with
    | zero => intro _; simp [settleStage]
    | succ j ih =>
        intro hk
        obtain ⟨n, rfl⟩ : ∃ n, rb = n + 1 := ⟨rb - 1, by omega⟩
        rw [List.replicate_succ, List.cons_append]
        simp [settleStage, ih n (by omega)]
  · intro rb name m rest t h
    have hnt : t.state.isTerminal = false := by rw [h]; rfl
    have hl : legalEdge t.state TState.failed = true := by rw [h]; rfl
    simp [runStages, settleStage, appendMessage, hnt, transition, hl,
      Except.toOption]

/-- C4 witness: the policy at `retryBound = 2` — a rejection settles in one
attempt and fails a running task; three straight timeouts exhaust the bound;
two timeouts then a success still settle as `ok`. -/
theorem C4_witness :
    settleStage 2 [AgentResult.rejection "unsupported spec version"] =
      some (AgentResult.rejection "unsupported spec version", 1) ∧
    settleStage 2 (List.replicate 3 (AgentResult.transportErr "timeout")) =
      some (AgentResult.transportErr "timeout", 3) ∧
    settleStage 2 (List.replicate 2 (AgentResult.transportErr "timeout") ++
      [AgentResult.ok defaultArtifact]) = some (AgentResult.ok defaultArtifact, 3) ∧
    runStages 2 ["generate"] [[AgentResult.rejection "unsupported spec version"]]
        runningTask0 =
      some (RunOutcome.finished
        { runningTask0 with
            history := runningTask0.history ++ [HMessage.stageStarted "generate"]
            state := TState.failed
            error := some "unsupported spec version" }) :=
  ⟨C4_retry_policy.1 2 "unsupported spec version" [],
   C4_retry_policy.2.1 2 "timeout",
   C4_retry_policy.2.2.1 2 2 "timeout" defaultArtifact (by decide),
   C4_retry_policy.2.2.2 2 "generate" "unsupported spec version" [] runningTask0 rfl⟩

/-! ## Helper lemmas for the resume claim -/

theorem appendMessage_input (t : Task) (m : HMessage) :
    (appendMessage t m).input = t.input := by
  unfold appendMessage
  split <;> rfl

theorem appendMessage_state (t : Task) (m : HMessage) :
    (appendMessage t m).state = t.state := by
  unfold appendMessage
  split <;> rfl

theorem appendArtifact_input (t : Task) (a : Artifact) :
    (appendArtifact t a).input = t.input := by
  unfold appendArtifact
  split <;> rfl

theorem appendArtifact_state (t : Task) (a : Artifact) :
    (appendArtifact t a).state = t.state := by
  unfold appendArtifact
  split <;> rfl

theorem transition_getD_input (t : Task) (s : TState) (e : Option String) :
    (((transition t s e).toOption).getD t).input = t.input := by
  unfold transition
  by_cases hl : legalEdge t.state s = true <;> simp [hl, Except.toOption]

/-- The pipeline driver never touches the task's `input`. -/
theorem runStages_input (rb : Nat) (stages : List String)
    (oracles : List (List AgentResult)) (t : Task) (out : RunOutcome)
    (h : runStages rb stages oracles t = some out) :
    out.task.input = t.input := by
  induction stages generalizing oracles t with
  | nil =>
      simp only [runStages] at h
      cases h
      exact transition_getD_input t TState.completed none
  | cons name rest ih =>
      simp only [runStages] at h
      cases hs : settleStage rb (oracles.headD []) with
      | none => rw [hs] at h; cases h
      | some rk =>
          rw [hs] at h
          obtain ⟨r, k⟩ := rk
          cases r with
          | ok a =>
              rw [ih (oracles.tailD []) _ h, appendMessage_input,
                appendArtifact_input, appendMessage_input]
          | needsInput m =>
              cases h
              simp only [RunOutcome.task]
              rw [transition_getD_input, appendMessage_input]
          | transportErr m =>
              cases h
              simp only [RunOutcome.task]
              rw [transition_getD_input, appendMessage_input]
          | rejection m =>
              cases h
              simp only [RunOutcome.task]
              rw [transition_getD_input, appendMessage_input]

/-- A running task whose every remaining stage succeeds on the first
dispatch runs to `completed`, never starting a stage outside the remaining
list. -/
theorem runStages_allOk (rb : Nat) (stages : List String) (t : Task)
    (h : t.state = TState.running) :
    ∃ t2 : Task,
      runStages rb stages (stages.map fun _ => [AgentResult.ok defaultArtifact]) t =
          some (RunOutcome.finished t2) ∧
        t2.state = TState.completed ∧
        (∀ name, name ∉ stages →
          stageStartedCount name t2.history = stageStartedCount name t.history) := by
  induction stages generalizing t with
  | nil =>
      have hl : legalEdge t.state TState.completed = true := by rw [h]; rfl
      refine ⟨{ t with state := TState.completed }, ?_, rfl, fun name _ => rfl⟩
      simp [runStages, transition, hl, Except.toOption]
  | cons stageName rest ih =>
      have hnt : t.state.isTerminal = false := by rw [h]; rfl
      have hmid :
          (appendMessage
            (appendArtifact (appendMessage t (HMessage.stageStarted stageName))
              defaultArtifact)
            (HMessage.stageDone stageName)).state = TState.running := by
        rw [appendMessage_state, appendArtifact_state, appendMessage_state, h]
      obtain ⟨t2, hrun, hstate, hcount⟩ := ih _ hmid
      refine ⟨t2, ?_, hstate, ?_⟩
      · simp only [List.map_cons, runStages, List.headD_cons, List.tailD_cons,
          settleStage]
        exact hrun
      · intro name hn
        have hn1 : name ∉ rest := fun hmem => hn (List.mem_cons_of_mem _ hmem)
        have hne : stageName ≠ name := fun he => hn (he ▸ List.mem_cons_self _ _)
        rw [hcount name hn1]
        simp [stageStartedCount, appendMessage, appendArtifact, hnt,
          appendMessage_state, appendArtifact_state, List.filter_append, hne]

/-- C5: for any task suspended in `input_required` with the suspended stage
at the head of the remaining stage list, a caller answer (the input
endpoint) amends the task's input — the original input stays as a prefix
and the answer is appended — and re-enters the pipeline at exactly the
remaining stages: whatever the adapters then answer, the resumed outcome
carries the amended input, and there are oracles (every remaining stage
succeeding once) under which the task reaches `completed` without any stage
outside the remaining list being started again. -/
theorem C5_resume_at_suspended_stage (rb : Nat) (t : Task) (rem : List String)
    (answer : String) (h : t.state = TState.input_required) :
    (∀ (oracles : List (List AgentResult)) (out : RunOutcome),
        resumeRun rb t rem answer oracles = some out →
        out.task.input = t.input ++ "\n" ++ answer) ∧
    (∃ t2 : Task,
        resumeRun rb t rem answer (rem.map fun _ => [AgentResult.ok defaultArtifact]) =
            some (RunOutcome.finished t2) ∧
          t2.state = TState.completed ∧
          (∀ name, name ∉ rem →
            stageStartedCount name t2.history = stageStartedCount name t.history)) := by
  have hres : ∀ oracles : List (List AgentResult),
      resumeRun rb t rem answer oracles =
        runStages rb rem oracles
          { t with input := t.input ++ "\n" ++ answer, state := TState.running } := by
    intro oracles
    simp [resumeRun, h, transition, amendInput, legalEdge]
  constructor
  · intro oracles out hout
    rw [hres oracles] at hout
    rw [runStages_input rb rem oracles _ out hout]
  · obtain ⟨t2, hrun, hstate, hcount⟩ := runStages_allOk rb rem
      { t with input := t.input ++ "\n" ++ answer, state := TState.running } rfl
    refine ⟨t2, ?_, hstate, ?_⟩
    · rw [hres _]
      exact hrun
    · intro name hn
      exact hcount name hn

/-- C5 witness: resuming the concrete task suspended at the Synthesizer
yields an outcome whose input is the original request amended with the
caller's answer. -/
theorem C5_witness :
    resumedOut0.task.input = suspendedTask0.input ++ "\n" ++ "use token auth" :=
  (C5_resume_at_suspended_stage 2 suspendedTask0 ["synthesize", "generate"]
      "use token auth" rfl).1 oracles0 resumedOut0 (by decide)

end Weavehack
